import Mathlib

/-!
Verification of the `ublox_nmea` MicroPython C module (`src/ublox_nmea.c`).

The development is a shallow embedding of the module: C doubles are modelled
by `Option ℚ` (`none` stands for the NaN sentinel that the code uses for
"absent"), the fixed-width unsigned integer fields (`uint8_t`, `uint16_t`)
by `ℕ` with explicit `% 256` / `% 65536` reductions, and C strings by
`List Char` (every byte of interest is ASCII; a character is reduced
`% 256` wherever the C code performs byte arithmetic).  The libc numeric
conversions `atof`, `atoi` and `strtol(..,16)` are modelled on their
decimal/hexadecimal fixed-point forms (sign, digits, fraction, exponent),
which is the fragment exercised by NMEA sentence fields.

The process-wide `current_gps_data` / `gps_data_initialized` pair is
modelled by starting from `gps_data_init`: the zero-filled pre-init
contents of the C static are unobservable, because every reader either
runs `gps_data_init` first (`parse_nmea_string`, `reset_gps_data`) or is
guarded by the `gps_data_initialized` flag (`get_current`,
`calculate_distance`), and the lazy initialisation is therefore the
identity in the model.
-/

/-- The value of a character as the byte the C code sees. -/
def byteOf (c : Char) : ℕ := c.toNat % 256

/-- C `int` arithmetic `c - '0'` on a character, as performed by the
time/date field decoding in the source. -/
def digitOf (c : Char) : ℤ := (byteOf c : ℤ) - 48

/-- Numeric value of a list of decimal digit characters (most significant
first), as accumulated by the libc conversions. -/
def natOfDigits (l : List Char) : ℕ :=
  l.foldl (fun a c => 10 * a + (c.toNat - 48)) 0

/-- The whitespace set skipped by the libc numeric conversions. -/
def isSpaceChar (c : Char) : Bool :=
  c == ' ' || c == '\t' || c == '\n' || c == '\r' ||
    c == Char.ofNat 11 || c == Char.ofNat 12

/-- Value of a hexadecimal digit character, if it is one. -/
def hexDigitValue (c : Char) : Option ℕ :=
  if '0' ≤ c ∧ c ≤ '9' then some (c.toNat - 48)
  else if 'a' ≤ c ∧ c ≤ 'f' then some (c.toNat - 87)
  else if 'A' ≤ c ∧ c ≤ 'F' then some (c.toNat - 55)
  else none

/-- Is the character a hexadecimal digit? -/
def isHexDigit (c : Char) : Bool := (hexDigitValue c).isSome

/-- Numeric value of a list of hexadecimal digit characters. -/
def natOfHexDigits (l : List Char) : ℕ :=
  l.foldl (fun a c => 16 * a + ((hexDigitValue c).getD 0)) 0

/-- libc `strtol(s, NULL, 16)`: skip whitespace, optional sign, optional
`0x`/`0X` prefix, then hexadecimal digits; the result is clamped to the
`long` range exactly as the C library does on overflow. -/
def strtol16 (l : List Char) : ℤ :=
  let l1 := l.dropWhile isSpaceChar
  let (neg, l2) : Bool × List Char :=
    match l1 with
    | '-' :: r => (true, r)
    | '+' :: r => (false, r)
    | r => (false, r)
  let l3 : List Char :=
    match l2 with
    | '0' :: c :: r => if c = 'x' ∨ c = 'X' then r else l2
    | _ => l2
  let raw : ℕ := natOfHexDigits (l3.takeWhile isHexDigit)
  if neg then max (-(raw : ℤ)) (-(2 ^ 63)) else min (raw : ℤ) (2 ^ 63 - 1)

/-- Exponent part accepted by libc `strtod` after the mantissa: `e`/`E`,
optional sign, digits; an exponent without digits is not consumed. -/
def strtodExponent (l : List Char) : ℤ :=
  match l with
  | c :: rest =>
    if c = 'e' ∨ c = 'E' then
      match rest with
      | '-' :: r =>
        if (r.takeWhile Char.isDigit).isEmpty then 0
        else -(natOfDigits (r.takeWhile Char.isDigit) : ℤ)
      | '+' :: r =>
        if (r.takeWhile Char.isDigit).isEmpty then 0
        else (natOfDigits (r.takeWhile Char.isDigit) : ℤ)
      | r =>
        if (r.takeWhile Char.isDigit).isEmpty then 0
        else (natOfDigits (r.takeWhile Char.isDigit) : ℤ)
    else 0
  | [] => 0

/-- Unsigned part of libc `atof`/`strtod` on a decimal literal:
digits, optional `.` and fraction digits, optional exponent; yields `0`
when no conversion is possible, exactly like `atof`. -/
def atofMagnitude (l : List Char) : ℚ :=
  let ip := l.takeWhile Char.isDigit
  let r1 := l.dropWhile Char.isDigit
  let fp : List Char :=
    match r1 with
    | '.' :: rest => rest.takeWhile Char.isDigit
    | _ => []
  let r2 : List Char :=
    match r1 with
    | '.' :: rest => rest.dropWhile Char.isDigit
    | _ => r1
  if ip.isEmpty ∧ fp.isEmpty then 0
  else
    let mant : ℚ := (natOfDigits ip : ℚ) + (natOfDigits fp : ℚ) / (10 : ℚ) ^ fp.length
    let e := strtodExponent r2
    if 0 ≤ e then mant * (10 : ℚ) ^ e.toNat else mant / (10 : ℚ) ^ (-e).toNat

/-- libc `atof` restricted to decimal fixed-point/exponent literals (the
forms NMEA fields can carry): skip whitespace, optional sign, magnitude. -/
def atof (l : List Char) : ℚ :=
  match l.dropWhile isSpaceChar with
  | '-' :: r => -(atofMagnitude r)
  | '+' :: r => atofMagnitude r
  | r => atofMagnitude r

/-- libc `atoi`: skip whitespace, optional sign, decimal digits. -/
def atoi (l : List Char) : ℤ :=
  match l.dropWhile isSpaceChar with
  | '-' :: r => -(natOfDigits (r.takeWhile Char.isDigit) : ℤ)
  | '+' :: r => (natOfDigits (r.takeWhile Char.isDigit) : ℤ)
  | r => (natOfDigits (r.takeWhile Char.isDigit) : ℤ)

/-- C `round`: round half away from zero, as used throughout the module. -/
def c_round (x : ℚ) : ℤ :=
  if 0 ≤ x then ⌊x + 1 / 2⌋ else -⌊1 / 2 - x⌋

/-- The module's one-decimal rounding idiom `round(x * 10.0) / 10.0`. -/
def round10 (x : ℚ) : ℚ := (c_round (x * 10) : ℚ) / 10

/-- The GPS fix record `gps_data_t` of `ublox_nmea.h`.  `Option ℚ` fields
are the NaN-sentinelled doubles; counters and date/time are the unsigned
integer fields; `timestamp` is the ISO-8601 character buffer. -/
structure gps_data_t where
  latitude : Option ℚ
  longitude : Option ℚ
  altitude : Option ℚ
  speed : Option ℚ
  course : Option ℚ
  satellites_used : ℕ
  satellites_visible : ℕ
  fix_type : ℕ
  hdop : Option ℚ
  vdop : Option ℚ
  pdop : Option ℚ
  accuracy : Option ℚ
  year : ℕ
  month : ℕ
  day : ℕ
  hour : ℕ
  minute : ℕ
  second : ℕ
  valid : Bool
  has_gga : Bool
  has_gsa : Bool
  has_gsv : Bool
  has_vtg : Bool
  has_satellites_used : Bool
  has_satellites_visible : Bool
  has_accuracy : Bool
  timestamp : List Char
  deriving Repr, DecidableEq

/-- `gps_data_init`: the all-absent record. -/
def gps_data_init : gps_data_t where
  latitude := none
  longitude := none
  altitude := none
  speed := none
  course := none
  satellites_used := 0
  satellites_visible := 0
  fix_type := 0
  hdop := none
  vdop := none
  pdop := none
  accuracy := none
  year := 0
  month := 0
  day := 0
  hour := 0
  minute := 0
  second := 0
  valid := false
  has_gga := false
  has_gsa := false
  has_gsv := false
  has_vtg := false
  has_satellites_used := false
  has_satellites_visible := false
  has_accuracy := false
  timestamp := []

/-- `calculate_accuracy`: base HDOP scaling with a satellite-count
multiplier, exactly the cascade of the C function. -/
def calculate_accuracy (hdop : ℚ) (satellites_used : ℕ) : ℚ :=
  let base_accuracy := hdop * (49 / 10)
  if 8 ≤ satellites_used then base_accuracy * (7 / 10)
  else if 5 ≤ satellites_used then base_accuracy * (9 / 10)
  else if satellites_used ≤ 3 then base_accuracy * (3 / 2)
  else base_accuracy

/-- `update_accuracy`: recompute the rounded accuracy and its presence
flag from HDOP and the satellites-used count (both branches of the C
conditional write exactly these two fields, so they are rendered as one
record update). -/
def update_accuracy (g : gps_data_t) : gps_data_t :=
  { g with
    accuracy :=
      match g.hdop with
      | some h =>
        if g.has_satellites_used then
          some (round10 (calculate_accuracy h g.satellites_used))
        else none
      | none => none
    has_accuracy := g.hdop.isSome && g.has_satellites_used }

/-- Zero-padded fixed-width decimal rendering, as `snprintf` `%0Nd` does
for non-negative values (wider numbers keep all their digits). -/
def padDigits (w n : ℕ) : List Char :=
  let d := Nat.toDigits 10 n
  List.replicate (w - d.length) '0' ++ d

/-- `update_timestamp`: synthesize the ISO-8601 buffer when the full date
is present; a rendering that would not fit the 25-byte buffer resets it
(every branch of the C function writes only `timestamp`). -/
def update_timestamp (g : gps_data_t) : gps_data_t :=
  { g with
    timestamp :=
      if 0 < g.year ∧ 0 < g.month ∧ 0 < g.day then
        let ts :=
          padDigits 4 g.year ++ '-' :: padDigits 2 g.month ++ '-' :: padDigits 2 g.day ++
            'T' :: padDigits 2 g.hour ++ ':' :: padDigits 2 g.minute ++
              ':' :: padDigits 2 g.second ++ ['Z']
        if 25 ≤ ts.length then [] else ts
      else [] }

/-- `parse_coordinate`: NMEA `DDDMM.MMMM` to signed decimal degrees; the
degree-digit count is inferred from the position of the first `.`, the
minutes substring is what `strncpy(minutes_str, coord+degree_digits, 15)`
captures, and `S`/`W` negate. -/
def parse_coordinate (coord : List Char) (direction : Char) : Option ℚ :=
  if coord.length < 7 then none
  else if ¬ coord.contains '.' then none
  else
    let dot_index := (coord.takeWhile (· != '.')).length
    let degree_digits : Option ℕ :=
      if dot_index = 2 then some 1
      else if dot_index = 3 then some 2
      else if dot_index = 4 then some 2
      else if dot_index = 5 then some 3
      else if dot_index = 6 then some 4
      else none
    match degree_digits with
    | none => none
    | some dd =>
      let degrees := atof (coord.take dd)
      let minutes := atof ((coord.drop dd).take 15)
      let result := degrees + minutes / 60
      some (if direction = 'S' ∨ direction = 'W' then -result else result)

/-- `checksum_valid`: `$`-led sentence whose XOR of the bytes strictly
between `$` and the first `*` equals the `strtol` base-16 value after the
`*`, reduced to `uint8_t`. -/
def checksum_valid (s : List Char) : Bool :=
  match s with
  | [] => false
  | c :: rest =>
    if c ≠ '$' then false
    else if ¬ rest.contains '*' then false
    else
      let payload := rest.takeWhile (· != '*')
      let calculated := payload.foldl (fun a ch => Nat.xor a (byteOf ch)) 0
      let received := ((strtol16 ((rest.dropWhile (· != '*')).drop 1)).emod 256).toNat
      calculated = received

/-- Per-field capacity rule of `parse_fields`: a field of 15 or more
characters does not fit the 16-byte buffer and is stored empty. -/
def capField (f : List Char) : List Char :=
  if f.length < 15 then f else []

/-- The worker of `parse_fields`: walk the sentence splitting on commas
while the field budget lasts; the final field (if the remainder is
non-empty and budget remains) is cut at the first `*`. -/
def parseFieldsAux : List Char → ℕ → List Char → List (List Char)
  | [], b, acc =>
    if b = 0 then []
    else if acc = [] then []
    else [capField (acc.takeWhile (· != '*'))]
  | c :: rest, b, acc =>
    if b = 0 then []
    else if c = ',' then capField acc :: parseFieldsAux rest (b - 1) []
    else parseFieldsAux rest b (acc ++ [c])

/-- `parse_fields` with the module's 20-field table. -/
def parse_fields (s : List Char) : List (List Char) :=
  parseFieldsAux s 20 []

/-- Reading `fields[i]`: entries beyond the populated count are the
zero-initialised (empty) rows of the C array. -/
def getField (fs : List (List Char)) (i : ℕ) : List Char := fs.getD i []

/-- `fields[i][0]` as the C code reads it: the first character, or the
NUL terminator of an empty field. -/
def fieldHead (f : List Char) : Char := f.headD (Char.ofNat 0)

/-- Decode a two-digit pair `(c1,c2)` as the C code does with
`(c1 - '0') * 10 + (c2 - '0')`, stored into a `uint8_t`. -/
def twoDigit (c1 c2 : Char) : ℕ :=
  ((digitOf c1 * 10 + digitOf c2).emod 256).toNat

/-- `parse_gga`: time-of-day, coordinates, fix quality, satellites-used,
HDOP (stored raw), rounded altitude; sets `has_gga` and recomputes
accuracy and timestamp.  Every conditional assignment of the C body reads
only the incoming fields, so the sequential writes are rendered as one
record update. -/
def parse_gga (s : List Char) (g : gps_data_t) : gps_data_t :=
  let fs := parse_fields s
  if fs.length < 14 then g
  else
    let f1 := getField fs 1
    let f2 := getField fs 2
    let f3 := getField fs 3
    let f4 := getField fs 4
    let f5 := getField fs 5
    let f6 := getField fs 6
    let f7 := getField fs 7
    let f8 := getField fs 8
    let f9 := getField fs 9
    update_timestamp (update_accuracy
      { g with
        hour := if 6 ≤ f1.length then twoDigit (f1.getD 0 ' ') (f1.getD 1 ' ') else g.hour
        minute := if 6 ≤ f1.length then twoDigit (f1.getD 2 ' ') (f1.getD 3 ' ') else g.minute
        second := if 6 ≤ f1.length then twoDigit (f1.getD 4 ' ') (f1.getD 5 ' ') else g.second
        latitude :=
          if f2 ≠ [] ∧ f3 ≠ [] then parse_coordinate f2 (fieldHead f3) else g.latitude
        longitude :=
          if f4 ≠ [] ∧ f5 ≠ [] then parse_coordinate f4 (fieldHead f5) else g.longitude
        fix_type := if f6 ≠ [] then ((atoi f6).emod 256).toNat else g.fix_type
        satellites_used := if f7 ≠ [] then ((atoi f7).emod 256).toNat else g.satellites_used
        has_satellites_used := if f7 ≠ [] then true else g.has_satellites_used
        hdop := if f8 ≠ [] then some (atof f8) else g.hdop
        altitude := if f9 ≠ [] then some (round10 (atof f9)) else g.altitude
        has_gga := true })

/-- `parse_rmc`: navigation status, fallback coordinates (only when the
current coordinate is absent or no position sentence has been decoded),
speed in knots converted to m/s, course, date; recomputes the timestamp. -/
def parse_rmc (s : List Char) (g : gps_data_t) : gps_data_t :=
  let fs := parse_fields s
  if fs.length < 12 then g
  else
    let f1 := getField fs 1
    let f2 := getField fs 2
    let f3 := getField fs 3
    let f4 := getField fs 4
    let f5 := getField fs 5
    let f6 := getField fs 6
    let f7 := getField fs 7
    let f8 := getField fs 8
    let f9 := getField fs 9
    update_timestamp
      { g with
        hour := if 6 ≤ f1.length then twoDigit (f1.getD 0 ' ') (f1.getD 1 ' ') else g.hour
        minute := if 6 ≤ f1.length then twoDigit (f1.getD 2 ' ') (f1.getD 3 ' ') else g.minute
        second := if 6 ≤ f1.length then twoDigit (f1.getD 4 ' ') (f1.getD 5 ' ') else g.second
        valid := fieldHead f2 == 'A'
        latitude :=
          if f3 ≠ [] ∧ f4 ≠ [] ∧ (g.latitude = none ∨ g.has_gga = false) then
            parse_coordinate f3 (fieldHead f4)
          else g.latitude
        longitude :=
          if f5 ≠ [] ∧ f6 ≠ [] ∧ (g.longitude = none ∨ g.has_gga = false) then
            parse_coordinate f5 (fieldHead f6)
          else g.longitude
        speed :=
          if f7 ≠ [] then some (round10 (atof f7 * (514444 / 1000000))) else g.speed
        course := if f8 ≠ [] then some (round10 (atof f8)) else g.course
        day := if 6 ≤ f9.length then twoDigit (f9.getD 0 ' ') (f9.getD 1 ' ') else g.day
        month := if 6 ≤ f9.length then twoDigit (f9.getD 2 ' ') (f9.getD 3 ' ') else g.month
        year :=
          if 6 ≤ f9.length then
            ((2000 + digitOf (f9.getD 4 ' ') * 10 + digitOf (f9.getD 5 ' ')).emod 65536).toNat
          else g.year }

/-- `parse_gsa`: rounded PDOP/HDOP/VDOP, sets `has_gsa`, recomputes
accuracy. -/
def parse_gsa (s : List Char) (g : gps_data_t) : gps_data_t :=
  let fs := parse_fields s
  if fs.length < 17 then g
  else
    let f15 := getField fs 15
    let f16 := getField fs 16
    let f17 := getField fs 17
    update_accuracy
      { g with
        pdop := if f15 ≠ [] then some (round10 (atof f15)) else g.pdop
        hdop := if f16 ≠ [] then some (round10 (atof f16)) else g.hdop
        vdop := if f17 ≠ [] then some (round10 (atof f17)) else g.vdop
        has_gsa := true }

/-- `parse_gsv`: total-visible satellite count from field 3. -/
def parse_gsv (s : List Char) (g : gps_data_t) : gps_data_t :=
  let fs := parse_fields s
  if fs.length < 4 then g
  else
    let f3 := getField fs 3
    if f3 ≠ [] then
      { g with
        satellites_visible := ((atoi f3).emod 256).toNat
        has_satellites_visible := true
        has_gsv := true }
    else g

/-- `parse_vtg`: fallback course, fallback speed (km/h to m/s, only when
the stored speed is absent or below the 0.1 m/s floor); sets `has_vtg`. -/
def parse_vtg (s : List Char) (g : gps_data_t) : gps_data_t :=
  let fs := parse_fields s
  if fs.length < 8 then g
  else
    let f1 := getField fs 1
    let f7 := getField fs 7
    { g with
      course :=
        if f1 ≠ [] ∧ g.course = none then some (round10 (atof f1)) else g.course
      speed :=
        match g.speed with
        | none => if f7 ≠ [] then some (round10 (atof f7 / (36 / 10))) else g.speed
        | some v =>
          if f7 ≠ [] ∧ v < 1 / 10 then some (round10 (atof f7 / (36 / 10))) else g.speed
      has_vtg := true }

/-- The snapshot dictionary built by `create_gps_dict_from_data`, as a
record of optional fields: `none` means the key is not stored. -/
structure FixSnapshot where
  valid : Bool
  latitude : Option ℚ
  longitude : Option ℚ
  altitude : Option ℚ
  speed : Option ℚ
  course : Option ℚ
  satellites_used : Option ℕ
  satellites_visible : Option ℕ
  fix_type : Option ℕ
  hdop : Option ℚ
  vdop : Option ℚ
  pdop : Option ℚ
  accuracy : Option ℚ
  date : Option (ℕ × ℕ × ℕ)
  time : Option (ℕ × ℕ × ℕ)
  timestamp : Option (List Char)
  deriving Repr, DecidableEq

/-- `create_gps_dict_from_data`: the field-presence rules of the snapshot
(speed, course and the DOPs are rounded again at output time; `date` is
`[day, month, year]`, `time` is `[hour, minute, second]`). -/
def create_gps_dict_from_data (g : gps_data_t) : FixSnapshot where
  valid := g.valid
  latitude := g.latitude
  longitude := g.longitude
  altitude := if g.has_gga then g.altitude else none
  speed := g.speed.map round10
  course := g.course.map round10
  satellites_used := if g.has_satellites_used then some g.satellites_used else none
  satellites_visible := if g.has_satellites_visible then some g.satellites_visible else none
  fix_type := if g.has_gga then some g.fix_type else none
  hdop := if g.has_gsa then g.hdop.map round10 else none
  vdop := if g.has_gsa then g.vdop.map round10 else none
  pdop := if g.has_gsa then g.pdop.map round10 else none
  accuracy := if g.has_accuracy then g.accuracy else none
  date :=
    if 0 < g.year ∧ 0 < g.month ∧ 0 < g.day then some (g.day, g.month, g.year) else none
  time := if 0 < g.year then some (g.hour, g.minute, g.second) else none
  timestamp := if g.timestamp ≠ [] then some g.timestamp else none

/-- The talker+type tags whose `strstr(s, tag) == s` tests route a
sentence to `parse_rmc`. -/
def rmcTags : List (List Char) := ["$GPRMC".toList, "$GNRMC".toList]

/-- The tags routed to `parse_gga`. -/
def ggaTags : List (List Char) := ["$GPGGA".toList, "$GNGGA".toList]

/-- The tags routed to `parse_gsa`. -/
def gsaTags : List (List Char) := ["$GPGSA".toList, "$GNGSA".toList]

/-- The tags routed to `parse_gsv`. -/
def gsvTags : List (List Char) :=
  ["$GPGSV".toList, "$GLGSV".toList, "$GNGSV".toList, "$GBGSV".toList]

/-- The tags routed to `parse_vtg`. -/
def vtgTags : List (List Char) := ["$GPVTG".toList, "$GNVTG".toList]

/-- Does the sentence begin with one of the given tags, as the
`strstr(s, tag) == s` tests of the dispatcher check? -/
def taggedBy (tags : List (List Char)) (s : List Char) : Bool :=
  tags.any (fun t => t.isPrefixOf s)

/-- `parse_nmea_string`: reject short or checksum-invalid lines with no
result and no state change; otherwise dispatch on the talker+type prefix
and return the snapshot of the updated record. -/
def parse_nmea_string (s : List Char) (g : gps_data_t) :
    Option FixSnapshot × gps_data_t :=
  if s.length < 6 then (none, g)
  else if ¬ checksum_valid s then (none, g)
  else
    let g' :=
      if taggedBy rmcTags s then parse_rmc s g
      else if taggedBy ggaTags s then parse_gga s g
      else if taggedBy gsaTags s then parse_gsa s g
      else if taggedBy gsvTags s then parse_gsv s g
      else if taggedBy vtgTags s then parse_vtg s g
      else g
    (some (create_gps_dict_from_data g'), g')

/-- `reset_gps_data`: replace the record with the all-absent instance. -/
def reset_gps_data : gps_data_t := gps_data_init

/-- Feed a list of raw lines through `parse_nmea_string`, keeping the
final record. -/
def decode_all (lines : List (List Char)) (g : gps_data_t) : gps_data_t :=
  lines.foldl (fun a l => (parse_nmea_string l a).2) g

/-- A standard valid RMC sentence (status `A`, coordinates 48°07.038′ N,
11°31.000′ E, date 23.03.94). -/
def rmcStandard : List Char :=
  "$GPRMC,123519,A,4807.038,N,01131.000,E,022.4,084.4,230394,003.1,W*6A".toList

/-- A valid GGA sentence carrying the different coordinates 55°33.000′ N,
37°36.000′ E. -/
def ggaMoscow : List Char :=
  "$GPGGA,123519,5533.000,N,03736.000,E,1,08,0.9,545.4,M,46.9,M,,*44".toList

/-- A second valid RMC sentence with yet other coordinates 10°00.000′ N,
20°00.000′ E. -/
def rmcThird : List Char :=
  "$GPRMC,123520,A,1000.000,N,02000.000,E,022.4,084.4,230394,003.1,W*61".toList

/-- A valid GGA sentence whose latitude/longitude fields are empty. -/
def ggaNoCoord : List Char :=
  "$GPGGA,123519,,,,,1,08,0.9,545.4,M,46.9,M,,*7E".toList

/-- A valid GGA sentence whose HDOP field is `1.25`. -/
def ggaHdop125 : List Char :=
  "$GPGGA,123519,4807.038,N,01131.000,E,1,08,1.25,545.4,M,46.9,M,,*78".toList

/-- A valid RMC sentence whose date field `150099` has month digits `00`. -/
def rmcMonthZero : List Char :=
  "$GPRMC,123519,A,4807.038,N,01131.000,E,022.4,084.4,150099,003.1,W*61".toList

/-- A valid RMC sentence with void status `V`. -/
def rmcVoid : List Char :=
  "$GPRMC,123519,V,4807.038,N,01131.000,E,022.4,084.4,230394,003.1,W*7D".toList

/-- A standard valid GSA sentence (PDOP 2.5, HDOP 1.3, VDOP 2.1). -/
def gsaStandard : List Char :=
  "$GPGSA,A,3,04,05,,09,12,,,24,,,,,2.5,1.3,2.1*39".toList

/-- A standard valid GSV sentence (8 satellites visible). -/
def gsvStandard : List Char :=
  "$GPGSV,2,1,08,01,40,083,46,02,17,308,41,12,07,344,39,14,22,228,45*75".toList

/-- The standard valid GGA sentence of the spec's end-to-end example. -/
def ggaStandard : List Char :=
  "$GPGGA,123519,4807.038,N,01131.000,E,1,08,0.9,545.4,M,46.9,M,,*47".toList

/-- A standard valid VTG sentence. -/
def vtgStandard : List Char :=
  "$GPVTG,054.7,T,034.4,M,005.5,N,010.2,K*48".toList

/-- The `rmcStandard` sentence with one payload character flipped
(status `A` became `B`) and the checksum field left unchanged. -/
def rmcCorrupt : List Char :=
  "$GPRMC,123519,B,4807.038,N,01131.000,E,022.4,084.4,230394,003.1,W*6A".toList

/-- A raw coordinate whose remainder after the degree digits is longer
than the 15 characters `parse_coordinate` copies into its minutes
buffer. -/
def longTailCoord : List Char := "0000.00000000000001".toList

/-- The satellite-count multiplier table of the accuracy estimator, as
the spec states it: `≥8 → 0.7`, `5–7 → 0.9`, `≤3 → 1.5`, `4 → 1.0`. -/
def spec_accuracy_multiplier (n : ℕ) : ℚ :=
  if 8 ≤ n then 7 / 10
  else if 5 ≤ n ∧ n ≤ 7 then 9 / 10
  else if n ≤ 3 then 3 / 2
  else 1

/-- The accuracy coherence stated by the spec: the presence flag is set
exactly when HDOP is present and a satellites-used count has been
supplied, the stored accuracy is present exactly when the flag is set,
and a present accuracy is the rounded `hdop × 4.9 × multiplier`. -/
def accuracy_invariant (g : gps_data_t) : Prop :=
  (g.has_accuracy = true ↔ (g.hdop.isSome = true ∧ g.has_satellites_used = true)) ∧
    (g.accuracy.isSome = true ↔ g.has_accuracy = true) ∧
    ∀ h, g.hdop = some h → g.has_satellites_used = true →
      g.accuracy = some (round10 (h * (49 / 10) * spec_accuracy_multiplier g.satellites_used))

/-- The stored-rounding discipline the record actually maintains: speed,
course, VDOP and PDOP are one-decimal values whenever present, and HDOP
is one as long as no position (GGA) sentence has been decoded. -/
def roundedStored (g : gps_data_t) : Prop :=
  (∀ x, g.speed = some x → round10 x = x) ∧
    (∀ x, g.course = some x → round10 x = x) ∧
    (∀ x, g.vdop = some x → round10 x = x) ∧
    (∀ x, g.pdop = some x → round10 x = x) ∧
    (g.has_gga = false → ∀ x, g.hdop = some x → round10 x = x)

/-- The coordinate decoder as the (amended) claim words it: below 7
characters or with the first decimal point outside indices 2–6 the value
is absent; otherwise the degree-digit count comes from the point's index
(2→1, 3→2, 4→2, 5→3, 6→4), the minutes are read from at most the first
15 characters after the degree digits, the result is
`degrees + minutes / 60`, and `S`/`W` negate it.  (When the string has no
point at all, the point index is the full length, ≥ 7, hence absent.) -/
def claim_coordinate (coord : List Char) (direction : Char) : Option ℚ :=
  if coord.length < 7 then none
  else
    let dot_index := (coord.takeWhile (· != '.')).length
    let dd :=
      if dot_index = 2 then some 1
      else if dot_index = 3 ∨ dot_index = 4 then some 2
      else if dot_index = 5 then some 3
      else if dot_index = 6 then some 4
      else none
    match dd with
    | none => none
    | some d =>
      let magnitude := atof (coord.take d) + atof ((coord.drop d).take 15) / 60
      some (if direction = 'S' ∨ direction = 'W' then -magnitude else magnitude)

/-- `DEG_TO_RAD` of the C module. -/
noncomputable def DEG_TO_RAD : ℝ := Real.pi / 180

/-- The C math library's `atan2`, by its sign-of-arguments cases.  The
distance calculator is the one transcendental (floating-point) component
of the module, so it is modelled over `ℝ`. -/
noncomputable def atan2 (y x : ℝ) : ℝ :=
  if 0 < x then Real.arctan (y / x)
  else if x < 0 ∧ 0 ≤ y then Real.arctan (y / x) + Real.pi
  else if x < 0 ∧ y < 0 then Real.arctan (y / x) - Real.pi
  else if x = 0 ∧ 0 < y then Real.pi / 2
  else if x = 0 ∧ y < 0 then -(Real.pi / 2)
  else 0

/-- `calculate_distance_haversine`: great-circle distance on the
6,371,000 m sphere. -/
noncomputable def calculate_distance_haversine (lat1 lon1 lat2 lon2 : ℝ) : ℝ :=
  let lat1_rad := lat1 * DEG_TO_RAD
  let lon1_rad := lon1 * DEG_TO_RAD
  let lat2_rad := lat2 * DEG_TO_RAD
  let lon2_rad := lon2 * DEG_TO_RAD
  let dlat := lat2_rad - lat1_rad
  let dlon := lon2_rad - lon1_rad
  let a := Real.sin (dlat / 2) * Real.sin (dlat / 2) +
    Real.cos lat1_rad * Real.cos lat2_rad * Real.sin (dlon / 2) * Real.sin (dlon / 2)
  let c := 2 * atan2 (Real.sqrt a) (Real.sqrt (1 - a))
  6371000 * c

/-- `c_round` is the identity on integers. -/
lemma c_round_intCast (k : ℤ) : c_round (k : ℚ) = k := by
  unfold c_round
  by_cases h : (0 : ℚ) ≤ (k : ℚ)
  · rw [if_pos h, show ((k : ℚ) + 1 / 2) = (1 / 2 + (k : ℚ)) by ring,
      Int.floor_add_int]
    norm_num
  · rw [if_neg h, show ((1 : ℚ) / 2 - (k : ℚ)) = (1 / 2 + ((-k : ℤ) : ℚ)) by
      push_cast; ring, Int.floor_add_int]
    norm_num

/-- One-decimal rounding is idempotent: a value already produced by
`round10` is its own rounding. -/
lemma round10_idem (x : ℚ) : round10 (round10 x) = round10 x := by
  unfold round10
  rw [div_mul_cancel₀ _ (by norm_num : (10 : ℚ) ≠ 0), c_round_intCast]

/-- Flag monotonicity of `parse_rmc`. -/
lemma parse_rmc_flags (s : List Char) (g : gps_data_t) :
    g.has_gga ≤ (parse_rmc s g).has_gga ∧ g.has_gsa ≤ (parse_rmc s g).has_gsa ∧
      g.has_gsv ≤ (parse_rmc s g).has_gsv ∧ g.has_vtg ≤ (parse_rmc s g).has_vtg := by
  unfold parse_rmc
  dsimp only
  split <;> exact ⟨le_refl _, le_refl _, le_refl _, le_refl _⟩

/-- Flag monotonicity of `parse_gga`. -/
lemma parse_gga_flags (s : List Char) (g : gps_data_t) :
    g.has_gga ≤ (parse_gga s g).has_gga ∧ g.has_gsa ≤ (parse_gga s g).has_gsa ∧
      g.has_gsv ≤ (parse_gga s g).has_gsv ∧ g.has_vtg ≤ (parse_gga s g).has_vtg := by
  unfold parse_gga
  dsimp only
  split
  · exact ⟨le_refl _, le_refl _, le_refl _, le_refl _⟩
  · exact ⟨Bool.le_true _, le_refl _, le_refl _, le_refl _⟩

/-- Flag monotonicity of `parse_gsa`. -/
lemma parse_gsa_flags (s : List Char) (g : gps_data_t) :
    g.has_gga ≤ (parse_gsa s g).has_gga ∧ g.has_gsa ≤ (parse_gsa s g).has_gsa ∧
      g.has_gsv ≤ (parse_gsa s g).has_gsv ∧ g.has_vtg ≤ (parse_gsa s g).has_vtg := by
  unfold parse_gsa
  dsimp only
  split
  · exact ⟨le_refl _, le_refl _, le_refl _, le_refl _⟩
  · exact ⟨le_refl _, Bool.le_true _, le_refl _, le_refl _⟩

/-- Flag monotonicity of `parse_gsv`. -/
lemma parse_gsv_flags (s : List Char) (g : gps_data_t) :
    g.has_gga ≤ (parse_gsv s g).has_gga ∧ g.has_gsa ≤ (parse_gsv s g).has_gsa ∧
      g.has_gsv ≤ (parse_gsv s g).has_gsv ∧ g.has_vtg ≤ (parse_gsv s g).has_vtg := by
  unfold parse_gsv
  dsimp only
  split
  · exact ⟨le_refl _, le_refl _, le_refl _, le_refl _⟩
  · split
    · exact ⟨le_refl _, le_refl _, Bool.le_true _, le_refl _⟩
    · exact ⟨le_refl _, le_refl _, le_refl _, le_refl _⟩

/-- Flag monotonicity of `parse_vtg`. -/
lemma parse_vtg_flags (s : List Char) (g : gps_data_t) :
    g.has_gga ≤ (parse_vtg s g).has_gga ∧ g.has_gsa ≤ (parse_vtg s g).has_gsa ∧
      g.has_gsv ≤ (parse_vtg s g).has_gsv ∧ g.has_vtg ≤ (parse_vtg s g).has_vtg := by
  unfold parse_vtg
  dsimp only
  split
  · exact ⟨le_refl _, le_refl _, le_refl _, le_refl _⟩
  · exact ⟨le_refl _, le_refl _, le_refl _, Bool.le_true _⟩

/-- One decode step never lowers a presence flag. -/
lemma parse_nmea_string_flags (s : List Char) (g : gps_data_t) :
    g.has_gga ≤ ((parse_nmea_string s g).2).has_gga ∧
      g.has_gsa ≤ ((parse_nmea_string s g).2).has_gsa ∧
      g.has_gsv ≤ ((parse_nmea_string s g).2).has_gsv ∧
      g.has_vtg ≤ ((parse_nmea_string s g).2).has_vtg := by
  unfold parse_nmea_string
  split
  · exact ⟨le_refl _, le_refl _, le_refl _, le_refl _⟩
  split
  · exact ⟨le_refl _, le_refl _, le_refl _, le_refl _⟩
  dsimp only
  split
  · exact parse_rmc_flags s g
  split
  · exact parse_gga_flags s g
  split
  · exact parse_gsa_flags s g
  split
  · exact parse_gsv_flags s g
  split
  · exact parse_vtg_flags s g
  · exact ⟨le_refl _, le_refl _, le_refl _, le_refl _⟩

/-- A sentence carrying an RMC tag is at least 6 characters long. -/
lemma taggedBy_rmc_length (s : List Char) (h : taggedBy rmcTags s = true) :
    6 ≤ s.length := by
  unfold taggedBy rmcTags at h
  simp only [List.any_cons, List.any_nil, Bool.or_eq_true, Bool.or_false] at h
  rcases h with h | h
  · have hl := (List.isPrefixOf_iff_prefix.mp h).length_le
    have he : ("$GPRMC".toList).length = 6 := rfl
    omega
  · have hl := (List.isPrefixOf_iff_prefix.mp h).length_le
    have he : ("$GNRMC".toList).length = 6 := rfl
    omega

/-- Once a position sentence has been seen and both coordinates are
present, `parse_rmc` leaves them untouched. -/
lemma parse_rmc_coords (s : List Char) (g : gps_data_t)
    (hflag : g.has_gga = true) (hlat : g.latitude.isSome = true)
    (hlon : g.longitude.isSome = true) :
    (parse_rmc s g).latitude = g.latitude ∧ (parse_rmc s g).longitude = g.longitude := by
  unfold parse_rmc update_timestamp
  dsimp only
  split
  · exact ⟨rfl, rfl⟩
  have hcl : ¬(getField (parse_fields s) 3 ≠ [] ∧ getField (parse_fields s) 4 ≠ [] ∧
      (g.latitude = none ∨ g.has_gga = false)) := by
    rintro ⟨-, -, h | h⟩
    · rw [h] at hlat
      simp at hlat
    · rw [hflag] at h
      simp at h
  have hcg : ¬(getField (parse_fields s) 5 ≠ [] ∧ getField (parse_fields s) 6 ≠ [] ∧
      (g.longitude = none ∨ g.has_gga = false)) := by
    rintro ⟨-, -, h | h⟩
    · rw [h] at hlon
      simp at hlon
    · rw [hflag] at h
      simp at h
  exact ⟨if_neg hcl, if_neg hcg⟩

/-- C8: the per-sentence-type presence flags (`has_gga`,
`has_gsa`, `has_gsv`, `has_vtg`) are monotonic: from any state, no
sequence of decode calls lowers a flag that is true; only the explicit
reset (`reset_gps_data`, which is not a decode call) clears them. -/
theorem c8_presence_flags_monotone (g : gps_data_t) (lines : List (List Char)) :
    g.has_gga ≤ (decode_all lines g).has_gga ∧
      g.has_gsa ≤ (decode_all lines g).has_gsa ∧
      g.has_gsv ≤ (decode_all lines g).has_gsv ∧
      g.has_vtg ≤ (decode_all lines g).has_vtg := by
  induction lines generalizing g with
  | nil => exact ⟨le_refl _, le_refl _, le_refl _, le_refl _⟩
  | cons l ls ih =>
    have hstep := parse_nmea_string_flags l g
    have hrest := ih ((parse_nmea_string l g).2)
    exact ⟨le_trans hstep.1 hrest.1, le_trans hstep.2.1 hrest.2.1,
      le_trans hstep.2.2.1 hrest.2.2.1, le_trans hstep.2.2.2 hrest.2.2.2⟩

/-- C2, counterexample: a position (GGA) sentence with empty coordinate
fields sets `has_gga` while leaving latitude absent, and a later
navigation (RMC) sentence then does write the coordinates — so "no later
RMC sentence ever writes latitude/longitude once `has_gga` is set" fails
on the code. -/
theorem c2_counterexample :
    (decode_all [ggaNoCoord] gps_data_init).has_gga = true ∧
      (decode_all [ggaNoCoord] gps_data_init).latitude = none ∧
      (decode_all [ggaNoCoord, rmcStandard] gps_data_init).latitude ≠ none ∧
      (decode_all [ggaNoCoord, rmcStandard] gps_data_init).longitude ≠ none := by
  decide

/-- C2, amended: in every state in which `has_gga` is set AND the stored
latitude and longitude are present, decoding a navigation (RMC) sentence
leaves the coordinates unchanged (an RMC may still fill in a coordinate
that is absent). -/
theorem c2_rmc_never_overwrites_position (s : List Char) (g : gps_data_t)
    (htag : taggedBy rmcTags s = true) (hflag : g.has_gga = true)
    (hlat : g.latitude.isSome = true) (hlon : g.longitude.isSome = true) :
    ((parse_nmea_string s g).2).latitude = g.latitude ∧
      ((parse_nmea_string s g).2).longitude = g.longitude := by
  unfold parse_nmea_string
  split
  · exact ⟨rfl, rfl⟩
  split
  · exact ⟨rfl, rfl⟩
  dsimp only
  exact parse_rmc_coords s g hflag hlat hlon

/-- C2, witness for the amended statement: after the spec's standard GGA
example has been decoded, the third navigation sentence leaves both
coordinates unchanged. -/
theorem c2_rmc_never_overwrites_position_witness :
    taggedBy rmcTags rmcThird = true ∧
      (decode_all [ggaStandard] gps_data_init).has_gga = true ∧
      ((decode_all [ggaStandard] gps_data_init).latitude).isSome = true ∧
      ((decode_all [ggaStandard] gps_data_init).longitude).isSome = true ∧
      ((parse_nmea_string rmcThird (decode_all [ggaStandard] gps_data_init)).2).latitude =
        (decode_all [ggaStandard] gps_data_init).latitude ∧
      ((parse_nmea_string rmcThird (decode_all [ggaStandard] gps_data_init)).2).longitude =
        (decode_all [ggaStandard] gps_data_init).longitude :=
  ⟨by decide, by decide, by decide, by decide,
    (c2_rmc_never_overwrites_position rmcThird (decode_all [ggaStandard] gps_data_init)
      (by decide) (by decide) (by decide) (by decide)).1,
    (c2_rmc_never_overwrites_position rmcThird (decode_all [ggaStandard] gps_data_init)
      (by decide) (by decide) (by decide) (by decide)).2⟩

set_option maxRecDepth 40000 in
/-- C3: decoding a navigation (RMC) sentence with coordinates, then a
position (GGA) sentence with different coordinates, then another RMC
sentence with yet other coordinates, leaves the record's coordinates
equal to the GGA sentence's values (55°33′ N = 55.55, 37°36′ E = 37.6),
not the last RMC sentence's values (10°00′ N, 20°00′ E). -/
theorem c3_position_precedence :
    (decode_all [rmcStandard, ggaMoscow, rmcThird] gps_data_init).latitude =
        some (1111 / 20 : ℚ) ∧
      (decode_all [rmcStandard, ggaMoscow, rmcThird] gps_data_init).longitude =
        some (188 / 5 : ℚ) ∧
      parse_coordinate ("5533.000".toList) 'N' = some (1111 / 20 : ℚ) ∧
      parse_coordinate ("03736.000".toList) 'E' = some (188 / 5 : ℚ) ∧
      parse_coordinate ("1000.000".toList) 'N' ≠ some (1111 / 20 : ℚ) ∧
      parse_coordinate ("02000.000".toList) 'E' ≠ some (188 / 5 : ℚ) := by
  with_unfolding_all decide

/-- C4: a line shorter than 6 characters, or one whose XOR-of-payload
checksum does not match the value after the `*` delimiter, produces no
result and leaves the fix record completely unchanged — the failure is a
soft `None`, never a hard error. -/
theorem c4_invalid_line_rejected_softly (s : List Char) (g : gps_data_t)
    (h : s.length < 6 ∨ checksum_valid s = false) :
    parse_nmea_string s g = (none, g) := by
  rcases h with h | h
  · simp [parse_nmea_string, h]
  · simp [parse_nmea_string, h]

/-- C4, witness: the standard navigation sentence with one payload
character flipped (and the checksum field untouched) fails the checksum
and is rejected without touching the record. -/
theorem c4_invalid_line_rejected_softly_witness :
    (rmcCorrupt.length < 6 ∨ checksum_valid rmcCorrupt = false) ∧
      parse_nmea_string rmcCorrupt gps_data_init = (none, gps_data_init) :=
  ⟨Or.inr (by decide),
    c4_invalid_line_rejected_softly rmcCorrupt gps_data_init (Or.inr (by decide))⟩

/-- C10: a navigation (RMC) sentence with a valid checksum and at least
12 fields unconditionally overwrites `valid`: it becomes true exactly
when the status field starts with `A`, so a later RMC with any other
status (including an empty one) sets `valid` back to false — `valid` is
not monotonic. -/
theorem c10_rmc_overwrites_valid (s : List Char) (g : gps_data_t)
    (htag : taggedBy rmcTags s = true) (hck : checksum_valid s = true)
    (hcount : 12 ≤ (parse_fields s).length) :
    ((parse_nmea_string s g).2).valid =
      (fieldHead (getField (parse_fields s) 2) == 'A') := by
  unfold parse_nmea_string
  split
  · exfalso
    have := taggedBy_rmc_length s htag
    omega
  dsimp only
  unfold parse_rmc update_timestamp
  dsimp only
  rw [if_neg (by omega)]

/-- C10, witness: after a sentence with active status has set `valid`,
the void-status sentence `rmcVoid` resets it to false. -/
theorem c10_rmc_overwrites_valid_witness :
    taggedBy rmcTags rmcVoid = true ∧ checksum_valid rmcVoid = true ∧
      12 ≤ (parse_fields rmcVoid).length ∧
      (decode_all [rmcStandard] gps_data_init).valid = true ∧
      fieldHead (getField (parse_fields rmcVoid) 2) ≠ 'A' ∧
      ((parse_nmea_string rmcVoid (decode_all [rmcStandard] gps_data_init)).2).valid =
        (fieldHead (getField (parse_fields rmcVoid) 2) == 'A') :=
  ⟨by decide, by decide, by decide, by decide, by decide,
    c10_rmc_overwrites_valid rmcVoid (decode_all [rmcStandard] gps_data_init)
      (by decide) (by decide) (by decide)⟩

/-- C7, counterexample: the RMC sentence `rmcMonthZero` (date field
`150099`) leaves the record with `month = 0` and `year = 2099`, and the
snapshot it returns carries a `time` entry but no `date` entry — so
"`time` present iff year, month and day are all nonzero" fails on the
code. -/
theorem c7_counterexample :
    (decode_all [rmcMonthZero] gps_data_init).month = 0 ∧
      0 < (decode_all [rmcMonthZero] gps_data_init).year ∧
      ((parse_nmea_string rmcMonthZero gps_data_init).1.map
          (fun s => (s.time.isSome, s.date.isSome))) = some (true, false) := by
  decide

/-- C7, amended: in every snapshot built for the caller (both
`parse_nmea_string` and `get_current` return
`create_gps_dict_from_data` of the live record), `date` is present iff
year, month and day are all nonzero, while `time` is present iff year
alone is nonzero. -/
theorem c7_date_time_presence (g : gps_data_t) :
    ((create_gps_dict_from_data g).date.isSome = true ↔
        (0 < g.year ∧ 0 < g.month ∧ 0 < g.day)) ∧
      ((create_gps_dict_from_data g).time.isSome = true ↔ 0 < g.year) := by
  unfold create_gps_dict_from_data
  dsimp only
  constructor
  · split
    · rename_i h
      simp [h]
    · rename_i h
      simp [h]
  · split
    · rename_i h
      simp [h]
    · rename_i h
      simp [h]

/-- The code's multiplier cascade agrees with the spec's table. -/
lemma calculate_accuracy_eq (h : ℚ) (n : ℕ) :
    calculate_accuracy h n = h * (49 / 10) * spec_accuracy_multiplier n := by
  by_cases h8 : 8 ≤ n
  · simp [calculate_accuracy, spec_accuracy_multiplier, h8]
  by_cases h5 : 5 ≤ n
  · have h7 : n ≤ 7 := by omega
    simp [calculate_accuracy, spec_accuracy_multiplier, h8, h5, h7]
  by_cases h3 : n ≤ 3
  · simp [calculate_accuracy, spec_accuracy_multiplier, h8, h5, h3]
  · simp [calculate_accuracy, spec_accuracy_multiplier, h8, h5, h3]

/-- `update_accuracy` establishes the accuracy invariant outright. -/
lemma update_accuracy_invariant (g : gps_data_t) :
    accuracy_invariant (update_accuracy g) := by
  unfold update_accuracy accuracy_invariant
  dsimp only
  refine ⟨?_, ?_, ?_⟩
  · cases g.hdop <;> simp
  · rcases hd : g.hdop with - | h
    · simp [hd]
    · by_cases hu : g.has_satellites_used <;> simp [hd, hu]
  · intro h hd hu
    rw [hd]
    dsimp only
    rw [if_pos hu, calculate_accuracy_eq]

/-- The accuracy invariant holds for the freshly initialised record. -/
lemma accuracy_invariant_init : accuracy_invariant gps_data_init := by
  unfold accuracy_invariant gps_data_init
  simp

/-- `parse_rmc` touches none of the accuracy inputs. -/
lemma accuracy_invariant_parse_rmc (s : List Char) (g : gps_data_t)
    (h : accuracy_invariant g) : accuracy_invariant (parse_rmc s g) := by
  unfold parse_rmc update_timestamp
  dsimp only
  split
  · exact h
  · exact h

/-- `parse_gsv` touches none of the accuracy inputs. -/
lemma accuracy_invariant_parse_gsv (s : List Char) (g : gps_data_t)
    (h : accuracy_invariant g) : accuracy_invariant (parse_gsv s g) := by
  unfold parse_gsv
  dsimp only
  split
  · exact h
  split
  · exact h
  · exact h

/-- `parse_vtg` touches none of the accuracy inputs. -/
lemma accuracy_invariant_parse_vtg (s : List Char) (g : gps_data_t)
    (h : accuracy_invariant g) : accuracy_invariant (parse_vtg s g) := by
  unfold parse_vtg
  dsimp only
  split
  · exact h
  · exact h

/-- `parse_gga` re-establishes the accuracy invariant through
`update_accuracy`. -/
lemma accuracy_invariant_parse_gga (s : List Char) (g : gps_data_t)
    (h : accuracy_invariant g) : accuracy_invariant (parse_gga s g) := by
  unfold parse_gga
  dsimp only
  split
  · exact h
  · exact update_accuracy_invariant _

/-- `parse_gsa` re-establishes the accuracy invariant through
`update_accuracy`. -/
lemma accuracy_invariant_parse_gsa (s : List Char) (g : gps_data_t)
    (h : accuracy_invariant g) : accuracy_invariant (parse_gsa s g) := by
  unfold parse_gsa
  dsimp only
  split
  · exact h
  · exact update_accuracy_invariant _

/-- One decode step preserves the accuracy invariant. -/
lemma accuracy_invariant_step (s : List Char) (g : gps_data_t)
    (h : accuracy_invariant g) : accuracy_invariant ((parse_nmea_string s g).2) := by
  unfold parse_nmea_string
  split
  · exact h
  split
  · exact h
  dsimp only
  split
  · exact accuracy_invariant_parse_rmc s g h
  split
  · exact accuracy_invariant_parse_gga s g h
  split
  · exact accuracy_invariant_parse_gsa s g h
  split
  · exact accuracy_invariant_parse_gsv s g h
  split
  · exact accuracy_invariant_parse_vtg s g h
  · exact h

/-- Any sequence of decode calls preserves the accuracy invariant. -/
lemma accuracy_invariant_decode_all (lines : List (List Char)) (g : gps_data_t)
    (h : accuracy_invariant g) : accuracy_invariant (decode_all lines g) := by
  induction lines generalizing g with
  | nil => exact h
  | cons l ls ih => exact ih _ (accuracy_invariant_step l g h)

/-- C1: the accuracy estimate is `hdop × 4.9` scaled by the spec's
satellite-count multiplier (≥8 → 0.7, 5–7 → 0.9, ≤3 → 1.5, 4 → 1.0) and
rounded to one decimal, and after any sequence of decodes from the
initial state the stored accuracy (with its presence flag) is absent
exactly when HDOP is absent or a satellites-used count has never been
supplied, and otherwise carries that rounded estimate. -/
theorem c1_accuracy_estimate :
    (∀ h n, calculate_accuracy h n = h * (49 / 10) * spec_accuracy_multiplier n) ∧
      ∀ lines, accuracy_invariant (decode_all lines gps_data_init) :=
  ⟨calculate_accuracy_eq,
    fun lines => accuracy_invariant_decode_all lines gps_data_init accuracy_invariant_init⟩

/-- A field set to a freshly rounded value, or kept, stays one-decimal. -/
lemma rounded_of_ite {c : Prop} [Decidable c] {v : ℚ} {old : Option ℚ}
    (hold : ∀ x, old = some x → round10 x = x) (x : ℚ)
    (hx : (if c then some (round10 v) else old) = some x) : round10 x = x := by
  split at hx
  · injection hx with hx
    rw [← hx]
    exact round10_idem v
  · exact hold x hx

/-- `parse_rmc` keeps the rounded-storage discipline. -/
lemma roundedStored_parse_rmc (s : List Char) (g : gps_data_t)
    (h : roundedStored g) : roundedStored (parse_rmc s g) := by
  unfold parse_rmc update_timestamp
  dsimp only
  split
  · exact h
  obtain ⟨hs, hc, hv, hp, hh⟩ := h
  exact ⟨fun x hx => rounded_of_ite hs x hx, fun x hx => rounded_of_ite hc x hx,
    hv, hp, hh⟩

/-- `parse_gga` keeps the rounded-storage discipline (it stores HDOP raw
but also raises `has_gga`, emptying the HDOP clause). -/
lemma roundedStored_parse_gga (s : List Char) (g : gps_data_t)
    (h : roundedStored g) : roundedStored (parse_gga s g) := by
  unfold parse_gga
  dsimp only
  split
  · exact h
  obtain ⟨hs, hc, hv, hp, -⟩ := h
  refine ⟨hs, hc, hv, hp, ?_⟩
  intro hfalse
  dsimp only [update_timestamp, update_accuracy] at hfalse
  cases hfalse

/-- `parse_gsa` keeps the rounded-storage discipline: every DOP it
writes is rounded at derivation. -/
lemma roundedStored_parse_gsa (s : List Char) (g : gps_data_t)
    (h : roundedStored g) : roundedStored (parse_gsa s g) := by
  unfold parse_gsa update_accuracy
  dsimp only
  split
  · exact h
  obtain ⟨hs, hc, hv, hp, hh⟩ := h
  refine ⟨hs, hc, fun x hx => rounded_of_ite hv x hx,
    fun x hx => rounded_of_ite hp x hx, ?_⟩
  intro hga x hx
  exact rounded_of_ite (hh hga) x hx

/-- `parse_gsv` keeps the rounded-storage discipline. -/
lemma roundedStored_parse_gsv (s : List Char) (g : gps_data_t)
    (h : roundedStored g) : roundedStored (parse_gsv s g) := by
  unfold parse_gsv
  dsimp only
  split
  · exact h
  split
  · exact h
  · exact h

/-- `parse_vtg` keeps the rounded-storage discipline. -/
lemma roundedStored_parse_vtg (s : List Char) (g : gps_data_t)
    (h : roundedStored g) : roundedStored (parse_vtg s g) := by
  unfold parse_vtg
  dsimp only
  split
  · exact h
  obtain ⟨hs, hc, hv, hp, hh⟩ := h
  refine ⟨?_, fun x hx => rounded_of_ite hc x hx, hv, hp, hh⟩
  intro x hx
  rcases hsp : g.speed with - | v <;> rw [hsp] at hx <;> dsimp only at hx
  · exact rounded_of_ite (fun y hy => Option.noConfusion hy) x hx
  · split at hx
    · injection hx with hx
      rw [← hx]
      exact round10_idem _
    · injection hx with hx
      rw [← hx]
      exact hs v hsp

/-- One decode step keeps the rounded-storage discipline. -/
lemma roundedStored_step (s : List Char) (g : gps_data_t)
    (h : roundedStored g) : roundedStored ((parse_nmea_string s g).2) := by
  unfold parse_nmea_string
  split
  · exact h
  split
  · exact h
  dsimp only
  split
  · exact roundedStored_parse_rmc s g h
  split
  · exact roundedStored_parse_gga s g h
  split
  · exact roundedStored_parse_gsa s g h
  split
  · exact roundedStored_parse_gsv s g h
  split
  · exact roundedStored_parse_vtg s g h
  · exact h

/-- The rounded-storage discipline holds initially. -/
lemma roundedStored_init : roundedStored gps_data_init := by
  unfold roundedStored gps_data_init
  refine ⟨?_, ?_, ?_, ?_, ?_⟩ <;> intros <;> simp_all

/-- Any sequence of decodes keeps the rounded-storage discipline. -/
lemma roundedStored_decode_all (lines : List (List Char)) (g : gps_data_t)
    (h : roundedStored g) : roundedStored (decode_all lines g) := by
  induction lines generalizing g with
  | nil => exact h
  | cons l ls ih => exact ih _ (roundedStored_step l g h)

/-- C6, counterexample: a position (GGA) sentence with HDOP field `1.25`
stores HDOP as 1.25 itself — not the one-decimal rounding 1.3 — so
"every stored DOP value, including HDOP supplied by a GGA sentence, is
rounded at derivation time" fails on the code. -/
theorem c6_counterexample :
    (decode_all [ggaHdop125] gps_data_init).hdop = some (5 / 4 : ℚ) ∧
      round10 (5 / 4 : ℚ) ≠ (5 / 4 : ℚ) := by
  with_unfolding_all decide

/-- C6, amended: after any sequence of decodes from the initial state,
the stored speed, course, VDOP and PDOP equal their derived value rounded
to one decimal, and so does HDOP as long as it has only ever come from a
satellite-geometry (GSA) sentence; a position (GGA) sentence instead
stores its HDOP unrounded, and the snapshot layer re-rounds HDOP at
output time (the decoder is pure, so repeated snapshot reads are
identical either way). -/
theorem c6_rounded_at_derivation :
    (∀ lines, roundedStored (decode_all lines gps_data_init)) ∧
      ∀ g, (create_gps_dict_from_data g).hdop =
        (if g.has_gsa = true then g.hdop.map round10 else none) :=
  ⟨fun lines => roundedStored_decode_all lines gps_data_init roundedStored_init,
    fun _ => rfl⟩

/-- A list without `.` is untouched by `takeWhile (· != '.')`. -/
lemma takeWhile_dot_of_not_contains (l : List Char) (h : l.contains '.' = false) :
    l.takeWhile (· != '.') = l := by
  rw [List.takeWhile_eq_self_iff]
  intro x hx
  simp at h ⊢
  exact fun hxeq => h (hxeq ▸ hx)

/-- C5 (amended): `parse_coordinate` is exactly the claim's decoder —
shorter than 7 characters, or first decimal point outside indices 2–6
(including no point at all), yields absent; otherwise the degree-digit
count is 1, 2, 2, 3, 4 for point index 2, 3, 4, 5, 6, the minutes are
read from at most the first 15 characters after the degree digits, the
result is `degrees + minutes/60`, negated exactly for hemisphere `S` or
`W` and left unchanged for every other hemisphere character. -/
theorem c5_coordinate_decoder (coord : List Char) (direction : Char) :
    parse_coordinate coord direction = claim_coordinate coord direction := by
  unfold parse_coordinate claim_coordinate
  by_cases hlen : coord.length < 7
  · simp [hlen]
  rw [if_neg hlen, if_neg hlen]
  by_cases hdot : coord.contains '.' = true
  · rw [if_neg (by simpa using hdot)]
    dsimp only
    by_cases h2 : (coord.takeWhile (· != '.')).length = 2
    · simp [h2]
    by_cases h3 : (coord.takeWhile (· != '.')).length = 3
    · simp [h2, h3]
    by_cases h4 : (coord.takeWhile (· != '.')).length = 4
    · simp [h2, h3, h4]
    by_cases h5 : (coord.takeWhile (· != '.')).length = 5
    · simp [h2, h3, h4, h5]
    by_cases h6 : (coord.takeWhile (· != '.')).length = 6
    · simp [h2, h3, h4, h5, h6]
    · simp [h2, h3, h4, h5, h6]
  · rw [if_pos (by simpa using hdot)]
    dsimp only
    rw [takeWhile_dot_of_not_contains coord (by simpa using hdot)]
    have h2 : ¬ coord.length = 2 := by omega
    have h3 : ¬ coord.length = 3 := by omega
    have h4 : ¬ coord.length = 4 := by omega
    have h5 : ¬ coord.length = 5 := by omega
    have h6 : ¬ coord.length = 6 := by omega
    simp [h2, h3, h4, h5, h6]

/-- C5, counterexample to the claim as stated: on the 19-character
coordinate `longTailCoord` (decimal point at index 4, hence 2 degree
digits) the code returns exactly 0, while the claim's
`degrees + minutes/60` over the full remainder is the non-zero
1e-14/60 — the code reads the minutes from at most 15 characters. -/
theorem c5_truncation_counterexample :
    parse_coordinate longTailCoord 'N' = some 0 ∧
      longTailCoord.length = 19 ∧
      (longTailCoord.takeWhile (· != '.')).length = 4 ∧
      atof (longTailCoord.take 2) + atof (longTailCoord.drop 2) / 60 ≠ 0 := by
  with_unfolding_all decide

/-- C9: for points with latitude in [−90, 90] and longitude in
[−180, 180] (the ranges `calculate_distance` admits), the haversine
distance is symmetric, and the distance from a point to itself is 0. -/
theorem c9_distance_symmetric (lat1 lon1 lat2 lon2 : ℝ)
    (_hlat1 : -90 ≤ lat1 ∧ lat1 ≤ 90) (_hlon1 : -180 ≤ lon1 ∧ lon1 ≤ 180)
    (_hlat2 : -90 ≤ lat2 ∧ lat2 ≤ 90) (_hlon2 : -180 ≤ lon2 ∧ lon2 ≤ 180) :
    calculate_distance_haversine lat1 lon1 lat2 lon2 =
        calculate_distance_haversine lat2 lon2 lat1 lon1 ∧
      calculate_distance_haversine lat1 lon1 lat1 lon1 = 0 := by
  constructor
  · unfold calculate_distance_haversine
    dsimp only
    have hsin : ∀ x y : ℝ, Real.sin ((x - y) / 2) = -Real.sin ((y - x) / 2) := by
      intro x y
      rw [show (x - y) / 2 = -((y - x) / 2) by ring, Real.sin_neg]
    rw [hsin (lat1 * DEG_TO_RAD) (lat2 * DEG_TO_RAD),
      hsin (lon1 * DEG_TO_RAD) (lon2 * DEG_TO_RAD)]
    ring_nf
  · unfold calculate_distance_haversine atan2
    dsimp only
    simp [Real.sqrt_one]

/-- C9, witness: the identities at the concrete points (10, 20) and
(30, 40). -/
theorem c9_distance_symmetric_witness :
    ((-90 : ℝ) ≤ 10 ∧ (10 : ℝ) ≤ 90) ∧ ((-180 : ℝ) ≤ 20 ∧ (20 : ℝ) ≤ 180) ∧
      ((-90 : ℝ) ≤ 30 ∧ (30 : ℝ) ≤ 90) ∧ ((-180 : ℝ) ≤ 40 ∧ (40 : ℝ) ≤ 180) ∧
      (calculate_distance_haversine 10 20 30 40 =
          calculate_distance_haversine 30 40 10 20 ∧
        calculate_distance_haversine 10 20 10 20 = 0) :=
  ⟨by norm_num, by norm_num, by norm_num, by norm_num,
    c9_distance_symmetric 10 20 30 40 (by norm_num) (by norm_num)
      (by norm_num) (by norm_num)⟩
